import Mathlib

/-!
Shallow embedding of the trust-and-policy layer of the multi-site commerce
platform: the custom auth service (`src/lib/custom-auth.ts`), the domain
resolver (`src/lib/domain-resolver.ts`), the enforcement engine
(`EnforcementService` in `src/lib/custom-auth.ts`) and the SQL helper
functions of the initial schema migration.

Database tables are modelled as lists of rows.  A supabase `maybeSingle`
(or `single` with its error destructured away) returns the matching row
only when it is unique; on zero or multiple matches the caller sees null
data.  Lookups keyed by a primary key or UNIQUE column can match at most
one row, so for them first-matching-row `List.find?` coincides with that
semantics and is used directly; the two lookups not backed by a
uniqueness constraint (`vendor_subscriptions` and `vendor_agreements` in
`checkVendorCanGoLive`) use the exact `maybeSingle` model.  Timestamps
are integers (milliseconds); `new Date(x) < new Date()` becomes
`x < now`.  Nullable columns are `Option`.  Fallible audit inserts are
driven by an explicit failure flag `af` so that the try/catch swallowing
in `logAuditEvent` is visible in the model.
-/

/-- Row of `auth_users`. -/
structure AuthUserRow where
  id : String
  email : String
  full_name : Option String
  status : String
  email_verified : Bool
  last_login_at : Option Int
  login_count : Int
  deriving Repr, DecidableEq

/-- Row of `auth_credentials`. -/
structure CredRow where
  id : String
  user_id : String
  password_hash : String
  password_salt : String
  failed_attempts : Int
  locked_until : Option Int
  deriving Repr, DecidableEq

/-- Row of `auth_sessions`. -/
structure SessionRow where
  id : String
  user_id : String
  token : String
  expires_at : Int
  last_activity_at : Option Int
  revoked : Bool
  revoked_at : Option Int
  revoked_reason : Option String
  deriving Repr, DecidableEq

/-- Row of `auth_role_assignments` (fields the code reads or writes). -/
structure RoleRow where
  user_id : String
  role : String
  is_current : Bool
  revoked : Bool
  revoked_reason : Option String
  deriving Repr, DecidableEq

/-- Row of `auth_audit_log`; metadata is flattened to the two keys the
auth service actually writes (`reason`, `attempts`). -/
structure AuditRow where
  user_id : Option String
  event_type : String
  reason : Option String
  attempts : Option Int
  deriving Repr, DecidableEq

/-- Row of `user_profiles` (fields the auth service touches). -/
structure ProfileRow where
  id : String
  role : String
  deriving Repr, DecidableEq

/-- Row of `vendors` (field the enforcement engine reads). -/
structure VendorRow where
  id : String
  status : String
  deriving Repr, DecidableEq

/-- Row of `vendor_subscriptions` (fields the enforcement engine reads). -/
structure SubRow where
  id : String
  vendor_id : String
  status : String
  billing_period_end : Int
  deriving Repr, DecidableEq

/-- Row of `vendor_agreements` (fields the enforcement engine reads). -/
structure AgrRow where
  vendor_id : String
  status : String
  deriving Repr, DecidableEq

/-- Row of `promotions` (fields `validatePromotion` reads). -/
structure PromoRow where
  id : String
  vendor_id : String
  site_id : Option String
  status : String
  starts_at : Int
  ends_at : Option Int
  allowed_roles : Option (List String)
  usage_limit : Option Int
  usage_count : Int
  deriving Repr, DecidableEq

/-- Row of `promo_usage` (fields `calculateVendorPromoCosts` reads). -/
structure UsageRow where
  promo_id : String
  created_at : Int
  vendor_cost : Int
  deriving Repr, DecidableEq

/-- Row of `sites` (fields the domain resolver reads). -/
structure SiteRow where
  id : String
  name : String
  slug : String
  deriving Repr, DecidableEq

/-- Row of `site_domains` (fields the domain resolver reads). -/
structure DomainRow where
  site_id : String
  domain : String
  is_primary : Bool
  status : String
  deriving Repr, DecidableEq

/-- The database state shared by all services. -/
structure DB where
  auth_users : List AuthUserRow := []
  auth_credentials : List CredRow := []
  auth_sessions : List SessionRow := []
  auth_role_assignments : List RoleRow := []
  auth_audit_log : List AuditRow := []
  user_profiles : List ProfileRow := []
  vendors : List VendorRow := []
  vendor_subscriptions : List SubRow := []
  vendor_agreements : List AgrRow := []
  promotions : List PromoRow := []
  promo_usage : List UsageRow := []
  sites : List SiteRow := []
  site_domains : List DomainRow := []
  deriving Repr, DecidableEq

/-- JavaScript `toLowerCase()`, modelled character by character (kept as a
plain list map so that concrete instances evaluate in the kernel). -/
def jsToLower (s : String) : String :=
  ⟨s.data.map Char.toLower⟩

/-! ## SQL helper functions of the schema migration -/

/-- SQL `check_vendor_can_go_live(p_vendor_id)`: approved vendor AND an
active subscription whose `billing_period_end > now()` AND a signed
agreement.  The plpgsql function returns SQL NULL when the vendor row is
missing; the TypeScript client only tests `data === true`, so the model
collapses NULL and false to `false`. -/
def check_vendor_can_go_live (db : DB) (now : Int) (vid : String) : Bool :=
  (match db.vendors.find? (fun v => v.id == vid) with
   | some v => v.status == "approved"
   | none => false)
  && db.vendor_subscriptions.any
      (fun s => s.vendor_id == vid && s.status == "active" && now < s.billing_period_end)
  && db.vendor_agreements.any (fun a => a.vendor_id == vid && a.status == "signed")

/-- SQL `resolve_site_from_domain(p_domain)`: the `site_id` of the first
`site_domains` row with the given domain and status `active`, else NULL. -/
def resolve_site_from_domain (db : DB) (d : String) : Option String :=
  (db.site_domains.find? (fun r => r.domain == d && r.status == "active")).map
    (fun r => r.site_id)

/-! ## EnforcementService -/

/-- supabase `maybeSingle()` over a filtered query: the matching row when
exactly one row matches; null data when zero rows match, and also when
more than one row matches (the returned error object is discarded at
these call sites, leaving null data). -/
def maybeSingle {α : Type} (p : α → Bool) (l : List α) : Option α :=
  match l.filter p with
  | [x] => some x
  | _ => none

/-- Result of `EnforcementService.checkVendorCanGoLive`. -/
structure VendorGoLiveStatus where
  canGoLive : Bool
  isApproved : Bool
  hasActiveSubscription : Bool
  hasSignedAgreement : Bool
  blockers : List String
  deriving Repr, DecidableEq

/-- `EnforcementService.checkVendorCanGoLive`: calls the
`check_vendor_can_go_live` RPC for `canGoLive`, then recomputes the three
component flags client-side and pushes one blocker string per failing
flag.  The vendor lookup is `single()` on the primary key (at most one
match, so `List.find?` has the same data semantics); the subscription and
agreement lookups are `maybeSingle()` over columns with no uniqueness
constraint, so they yield null data on multiple matching rows. -/
def checkVendorCanGoLive (db : DB) (now : Int) (vendorId : String) : VendorGoLiveStatus :=
  let rpc := check_vendor_can_go_live db now vendorId
  let vendor := db.vendors.find? (fun v => v.id == vendorId)
  let subscription := maybeSingle
    (fun s => s.vendor_id == vendorId && s.status == "active") db.vendor_subscriptions
  let agreement := maybeSingle
    (fun a => a.vendor_id == vendorId && a.status == "signed") db.vendor_agreements
  let isApproved := match vendor with
    | some v => v.status == "approved"
    | none => false
  let hasActiveSubscription := match subscription with
    | some s => now < s.billing_period_end
    | none => false
  let hasSignedAgreement := agreement.isSome
  let blockers :=
    (if isApproved then [] else ["Vendor not approved"])
    ++ (if hasActiveSubscription then [] else ["No active subscription"])
    ++ (if hasSignedAgreement then [] else ["No signed agreement"])
  { canGoLive := rpc
    isApproved := isApproved
    hasActiveSubscription := hasActiveSubscription
    hasSignedAgreement := hasSignedAgreement
    blockers := blockers }

/-- Result of `EnforcementService.validatePromotion`. -/
structure PromoValidation where
  isValid : Bool
  canBeUsed : Bool
  errors : List String
  deriving Repr, DecidableEq

/-- `EnforcementService.validatePromotion`: loads the promotion, then runs
every check, accumulating error strings without short-circuiting.  The
JavaScript truthiness guard `promo.usage_limit && ...` skips the usage
check when `usage_limit` is 0 as well as when it is null. -/
def validatePromotion (db : DB) (now : Int) (promoId siteId userRole : String) :
    PromoValidation :=
  match db.promotions.find? (fun p => p.id == promoId) with
  | none => { isValid := false, canBeUsed := false, errors := ["Promotion not found"] }
  | some promo =>
    let errors :=
      (if promo.status == "active" then [] else ["Promotion is not active"])
      ++ (match promo.site_id with
          | some s => if s == siteId then [] else ["Promotion not valid for this site"]
          | none => [])
      ++ (if now < promo.starts_at then ["Promotion has not started yet"] else [])
      ++ (match promo.ends_at with
          | some e => if e < now then ["Promotion has expired"] else []
          | none => [])
      ++ (match promo.allowed_roles with
          | some roles =>
            if roles.contains userRole then [] else
              ["Promotion not available for your account type"]
          | none => [])
      ++ (match promo.usage_limit with
          | some l =>
            if l != 0 && promo.usage_count >= l then ["Promotion usage limit reached"]
            else []
          | none => [])
      ++ (if (checkVendorCanGoLive db now promo.vendor_id).canGoLive then []
          else ["Promotion vendor is not active"])
    { isValid := promo.status == "active"
      canBeUsed := errors.isEmpty
      errors := errors }

/-- `EnforcementService.calculateVendorPromoCosts`: sums `vendor_cost` over
`promo_usage` rows filtered by `created_at` within `[startDate, endDate]`
(both inclusive, `gte`/`lte`) and by `promo_id` equal to the `vendorId`
argument.  `qf` models the query throwing: the catch returns 0. -/
def calculateVendorPromoCosts (qf : Bool) (db : DB)
    (vendorId : String) (startDate endDate : Int) : Int :=
  if qf then 0
  else
    (db.promo_usage.filter
      (fun u => startDate <= u.created_at && u.created_at <= endDate
                && u.promo_id == vendorId)).foldl
      (fun sum u => sum + u.vendor_cost) 0

/-! ## Domain resolver -/

/-- Result of a domain resolution. -/
structure ResolvedSite where
  siteId : String
  siteName : String
  siteSlug : String
  domain : String
  isPrimary : Bool
  deriving Repr, DecidableEq

/-- Resolver cache: the `cache` map and the `cacheExpiry` map, as
association lists (latest binding first, as the lookup finds it). -/
structure ResolverCache where
  cache : List (String × ResolvedSite) := []
  cacheExpiry : List (String × Int) := []
  deriving Repr, DecidableEq

/-- `DomainResolver.getCached` plus its delete-on-miss side effect:
returns the cached site when the stored expiry is strictly in the future,
otherwise deletes both entries for the key. -/
def getCached (st : ResolverCache) (now : Int) (d : String) :
    Option ResolvedSite × ResolverCache :=
  match st.cacheExpiry.lookup d with
  | some exp =>
    if now < exp then (st.cache.lookup d, st)
    else (none, { cache := st.cache.filter (fun kv => kv.1 != d)
                  cacheExpiry := st.cacheExpiry.filter (fun kv => kv.1 != d) })
  | none => (none, { cache := st.cache.filter (fun kv => kv.1 != d)
                     cacheExpiry := st.cacheExpiry.filter (fun kv => kv.1 != d) })

/-- Cache TTL of the resolver: 5 minutes in milliseconds. -/
def CACHE_TTL : Int := 5 * 60 * 1000

/-- `DomainResolver.setCached`. -/
def setCached (st : ResolverCache) (now : Int) (d : String) (site : ResolvedSite) :
    ResolverCache :=
  { cache := (d, site) :: st.cache.filter (fun kv => kv.1 != d)
    cacheExpiry := (d, now + CACHE_TTL) :: st.cacheExpiry.filter (fun kv => kv.1 != d) }

/-- The regex replace `:\d+$`: strip one trailing colon-plus-digits suffix. -/
def stripPort (s : String) : String :=
  let r := s.data.reverse
  let ds := r.takeWhile (fun c => c.isDigit)
  if ds.isEmpty then s
  else
    match r.drop ds.length with
    | ':' :: rest => ⟨rest.reverse⟩
    | _ => s

/-- Input normalization of `resolveSiteFromDomain`: lower-case, then strip
a trailing `:port`. -/
def normalizeDomain (s : String) : String :=
  stripPort (jsToLower s)

/-- `DomainResolver.resolveSiteFromDomain`: normalize, consult the cache,
and on a miss run the lookup chain `resolve_site_from_domain` RPC → site
row → domain row (for `isPrimary` only), caching a successful result. -/
def resolveSiteFromDomain (db : DB) (st : ResolverCache) (now : Int)
    (domain : String) : Option ResolvedSite × ResolverCache :=
  let nd := normalizeDomain domain
  match getCached st now nd with
  | (some cached, st) => (some cached, st)
  | (none, st) =>
    match resolve_site_from_domain db nd with
    | none => (none, st)
    | some siteId =>
      match db.sites.find? (fun s => s.id == siteId) with
      | none => (none, st)
      | some siteData =>
        let domainData := db.site_domains.find?
          (fun r => r.site_id == siteId && r.domain == nd)
        let resolved : ResolvedSite :=
          { siteId := siteData.id
            siteName := siteData.name
            siteSlug := siteData.slug
            domain := nd
            isPrimary := match domainData with
              | some r => r.is_primary
              | none => false }
        (some resolved, setCached st now nd resolved)

/-- `DomainResolver.resolveSiteFromHostHeader`: take the part of the raw
Host header before the first colon and delegate. -/
def resolveSiteFromHostHeader (db : DB) (st : ResolverCache) (now : Int)
    (hostHeader : String) : Option ResolvedSite × ResolverCache :=
  resolveSiteFromDomain db st now ((hostHeader.splitOn ":").headD hostHeader)

/-! ## CustomAuthService -/

/-- Session lifetime: 24 * 7 hours, in milliseconds. -/
def SESSION_DURATION_MS : Int := 24 * 7 * 3600 * 1000

/-- The user record `validateSession` and `login` return. -/
structure CustomAuthUser where
  id : String
  email : String
  fullName : Option String
  role : String
  status : String
  emailVerified : Bool
  lastLoginAt : Option Int
  deriving Repr, DecidableEq

/-- The session record returned on signup/login. -/
structure AuthSession where
  userId : String
  token : String
  expiresAt : Int
  deriving Repr, DecidableEq

/-- `CustomAuthService.logAuditEvent`: an append-only insert wrapped in
try/catch; `af` injects an insert failure, which the catch swallows, so
the function is total and on failure leaves the log unchanged. -/
def logAuditEvent (af : Bool) (db : DB) (ev : AuditRow) : DB :=
  if af then db else { db with auth_audit_log := db.auth_audit_log ++ [ev] }

/-- `CustomAuthService.createSession` (private helper): inserts a session
row expiring `SESSION_DURATION_MS` after now and audits `session_created`.
The generated random token is passed in as `token`. -/
def createSession (af : Bool) (db : DB) (now : Int) (token : String)
    (userId : String) : Option AuthSession × DB :=
  let expiresAt := now + SESSION_DURATION_MS
  let row : SessionRow :=
    { id := token, user_id := userId, token := token, expires_at := expiresAt
      last_activity_at := none, revoked := false, revoked_at := none
      revoked_reason := none }
  let db := { db with auth_sessions := db.auth_sessions ++ [row] }
  let db := logAuditEvent af db
    { user_id := some userId, event_type := "session_created"
      reason := none, attempts := none }
  (some { userId := userId, token := token, expiresAt := expiresAt }, db)

/-- Is the credential locked right now?  JavaScript:
`cred.locked_until && new Date(cred.locked_until) > new Date()`. -/
def credLocked (c : CredRow) (now : Int) : Bool :=
  match c.locked_until with
  | some t => now < t
  | none => false

/-- `CustomAuthService.login`.  `hash` is the SHA-256 password digest
function (abstracted), `token` the random token a successful login would
use, `af` the audit-insert failure flag. -/
def login (hash : String → String → String) (af : Bool) (db : DB) (now : Int)
    (token : String) (email password : String) : Option CustomAuthUser × DB :=
  match db.auth_users.find?
      (fun u => u.email == jsToLower email && u.status == "active") with
  | none =>
    (none, logAuditEvent af db
      { user_id := none, event_type := "login_failed"
        reason := some "user_not_found", attempts := none })
  | some user =>
    match db.auth_credentials.find? (fun c => c.user_id == user.id) with
    | none => (none, db)
    | some cred =>
      if credLocked cred now then
        (none, logAuditEvent af db
          { user_id := some user.id, event_type := "login_failed"
            reason := some "account_locked", attempts := none })
      else if hash password cred.password_salt != cred.password_hash then
        let creds := db.auth_credentials.map (fun c =>
          if c.id == cred.id then
            { c with failed_attempts := cred.failed_attempts + 1 } else c)
        let db := { db with auth_credentials := creds }
        (none, logAuditEvent af db
          { user_id := some user.id, event_type := "login_failed"
            reason := none, attempts := some (cred.failed_attempts + 1) })
      else
        let creds := db.auth_credentials.map (fun c =>
          if c.id == cred.id then { c with failed_attempts := 0 } else c)
        let db := { db with auth_credentials := creds }
        let users := db.auth_users.map (fun u =>
          if u.id == user.id then
            { u with last_login_at := some now, login_count := user.login_count + 1 }
          else u)
        let db := { db with auth_users := users }
        let role := match db.auth_role_assignments.find?
            (fun r => r.user_id == user.id && r.is_current && !r.revoked) with
          | some r => r.role
          | none => "guest"
        let db := logAuditEvent af db
          { user_id := some user.id, event_type := "login"
            reason := none, attempts := none }
        let (_, db) := createSession af db now token user.id
        (some { id := user.id, email := user.email, fullName := user.full_name
                role := role, status := user.status
                emailVerified := user.email_verified
                lastLoginAt := user.last_login_at }, db)

/-- `CustomAuthService.logout`: look up the session by token (any revoked
state); absent returns false, otherwise mark it revoked with reason
"User logout" and audit `logout`. -/
def logout (af : Bool) (db : DB) (now : Int) (token : String) : Bool × DB :=
  match db.auth_sessions.find? (fun s => s.token == token) with
  | none => (false, db)
  | some session =>
    let sessions := db.auth_sessions.map (fun s =>
      if s.token == token then
        { s with revoked := true, revoked_at := some now
                 revoked_reason := some "User logout" } else s)
    let db := { db with auth_sessions := sessions }
    let db := logAuditEvent af db
      { user_id := some session.user_id, event_type := "logout"
        reason := none, attempts := none }
    (true, db)

/-- `CustomAuthService.validateSession`: finds a non-revoked session with
the token, rejects it when expired, then writes `last_activity_at`,
requires the owning user to be active, and resolves the current role
(sentinel "guest" when no current assignment).  `af` is threaded for
uniformity with the other operations; this one makes no audit writes. -/
def validateSession (af : Bool) (db : DB) (now : Int) (token : String) :
    Option CustomAuthUser × DB :=
  let _ := af
  match db.auth_sessions.find? (fun s => s.token == token && !s.revoked) with
  | none => (none, db)
  | some session =>
    if session.expires_at < now then (none, db)
    else
      let sessions := db.auth_sessions.map (fun s =>
        if s.id == session.id then { s with last_activity_at := some now } else s)
      let db := { db with auth_sessions := sessions }
      match db.auth_users.find?
          (fun u => u.id == session.user_id && u.status == "active") with
      | none => (none, db)
      | some user =>
        let role := match db.auth_role_assignments.find?
            (fun r => r.user_id == user.id && r.is_current && !r.revoked) with
          | some r => r.role
          | none => "guest"
        (some { id := user.id, email := user.email, fullName := user.full_name
                role := role, status := user.status
                emailVerified := user.email_verified
                lastLoginAt := user.last_login_at }, db)

/-- `CustomAuthService.signup`: rejects a duplicate lower-cased email;
otherwise inserts the user, credential, default retail role assignment and
profile, audits `signup` and creates a session.  Generated values (new
user id, salt, session token) are passed in. -/
def signup (hash : String → String → String) (af : Bool) (db : DB) (now : Int)
    (newUserId salt token : String) (email password : String)
    (fullName : Option String) : Option (CustomAuthUser × AuthSession) × DB :=
  match db.auth_users.find? (fun u => u.email == jsToLower email) with
  | some _ => (none, db)
  | none =>
    let newUser : AuthUserRow :=
      { id := newUserId, email := jsToLower email, full_name := fullName
        status := "active", email_verified := false, last_login_at := none
        login_count := 0 }
    let newCred : CredRow :=
      { id := newUserId, user_id := newUserId
        password_hash := hash password salt, password_salt := salt
        failed_attempts := 0, locked_until := none }
    let newRoleRow : RoleRow :=
      { user_id := newUserId, role := "retail", is_current := true
        revoked := false, revoked_reason := none }
    let newProfile : ProfileRow := { id := newUserId, role := "retail" }
    let db := { db with auth_users := db.auth_users ++ [newUser] }
    let db := { db with auth_credentials := db.auth_credentials ++ [newCred] }
    let roleRows := db.auth_role_assignments ++ [newRoleRow]
    let db := { db with auth_role_assignments := roleRows }
    let db := { db with user_profiles := db.user_profiles ++ [newProfile] }
    let db := logAuditEvent af db
      { user_id := some newUserId, event_type := "signup"
        reason := none, attempts := none }
    match createSession af db now token newUserId with
    | (some session, db) =>
      (some ({ id := newUserId, email := newUser.email
               fullName := newUser.full_name, role := "retail"
               status := newUser.status, emailVerified := newUser.email_verified
               lastLoginAt := newUser.last_login_at }, session), db)
    | (none, db) => (none, db)

/-- `CustomAuthService.changeRole`: revoke-old plus insert-new on the role
ledger, denormalize into `user_profiles`, audit `role_changed`. -/
def changeRole (af : Bool) (db : DB) (userId newRole performedBy : String)
    (reason : Option String) : Bool × DB :=
  let _ := reason
  let _ := performedBy
  let revokedRows := db.auth_role_assignments.map (fun r =>
    if r.user_id == userId && r.is_current then
      { r with is_current := false, revoked := true
               revoked_reason := some ("Role changed to " ++ newRole) } else r)
  let db := { db with auth_role_assignments := revokedRows }
  let newRow : RoleRow :=
    { user_id := userId, role := newRole, is_current := true
      revoked := false, revoked_reason := none }
  let db := { db with auth_role_assignments := db.auth_role_assignments ++ [newRow] }
  let profiles := db.user_profiles.map (fun p =>
    if p.id == userId then { p with role := newRole } else p)
  let db := { db with user_profiles := profiles }
  let db := logAuditEvent af db
    { user_id := some userId, event_type := "role_changed"
      reason := none, attempts := none }
  (true, db)

/-! ## Iteration harness and concrete states used by witnesses -/

/-- n-fold iteration of `login` on the database component (the state after
n successive login attempts with the same inputs). -/
def loginN (hash : String → String → String) (af : Bool) (now : Int)
    (token email password : String) : Nat → DB → DB
  | 0, db => db
  | n + 1, db =>
    (login hash af (loginN hash af now token email password n db) now token
      email password).2

/-- Concrete hash stand-in used by witnesses. -/
def hashW (password salt : String) : String := password ++ salt

/-- Vendor with two subscription rows of status active (one expired, one
current): the RPC's EXISTS sees the current row, while the client
`maybeSingle` sees multiple matches and yields null data. -/
def dbC1 : DB :=
  { vendors := [{ id := "v1", status := "approved" }]
    vendor_subscriptions :=
      [{ id := "s1", vendor_id := "v1", status := "active", billing_period_end := 5 },
       { id := "s2", vendor_id := "v1", status := "active", billing_period_end := 20 }]
    vendor_agreements := [{ vendor_id := "v1", status := "signed" }] }

/-- Vendor with a single current subscription: fully eligible to go live. -/
def dbC1w : DB :=
  { vendors := [{ id := "v1", status := "approved" }]
    vendor_subscriptions :=
      [{ id := "s1", vendor_id := "v1", status := "active", billing_period_end := 20 }]
    vendor_agreements := [{ vendor_id := "v1", status := "signed" }] }

/-- Promotion with `usage_limit` present but equal to 0 and a positive
`usage_count`; every other promotion condition passes. -/
def dbC5 : DB :=
  { vendors := [{ id := "v1", status := "approved" }]
    vendor_subscriptions :=
      [{ id := "s1", vendor_id := "v1", status := "active", billing_period_end := 20 }]
    vendor_agreements := [{ vendor_id := "v1", status := "signed" }]
    promotions :=
      [{ id := "p1", vendor_id := "v1", site_id := none, status := "active"
         starts_at := 0, ends_at := none, allowed_roles := none
         usage_limit := some 0, usage_count := 5 }] }

/-- Promotion at its usage limit (10 of 10); every other condition passes. -/
def dbC5w : DB :=
  { vendors := [{ id := "v1", status := "approved" }]
    vendor_subscriptions :=
      [{ id := "s1", vendor_id := "v1", status := "active", billing_period_end := 20 }]
    vendor_agreements := [{ vendor_id := "v1", status := "signed" }]
    promotions :=
      [{ id := "p1", vendor_id := "v1", site_id := none, status := "active"
         starts_at := 0, ends_at := none, allowed_roles := none
         usage_limit := some 10, usage_count := 10 }] }

/-- A single expired, unrevoked session. -/
def dbC2 : DB :=
  { auth_sessions :=
      [{ id := "sess1", user_id := "u1", token := "tok1", expires_at := 50
         last_activity_at := none, revoked := false, revoked_at := none
         revoked_reason := none }] }

/-- A live session whose owning user is suspended. -/
def dbC9 : DB :=
  { auth_sessions :=
      [{ id := "sess1", user_id := "u1", token := "tok1", expires_at := 500
         last_activity_at := none, revoked := false, revoked_at := none
         revoked_reason := none }]
    auth_users :=
      [{ id := "u1", email := "a@x.com", full_name := none
         status := "suspended", email_verified := false, last_login_at := none
         login_count := 0 }] }

/-- An active user whose credential is locked until time 200. -/
def dbC3 : DB :=
  { auth_users :=
      [{ id := "u1", email := "a@x.com", full_name := none, status := "active"
         email_verified := false, last_login_at := none, login_count := 0 }]
    auth_credentials :=
      [{ id := "c1", user_id := "u1", password_hash := hashW "pw" "salt"
         password_salt := "salt", failed_attempts := 3
         locked_until := some 200 }] }

/-- An active, unlocked user; stored hash matches password "pw". -/
def dbC4 : DB :=
  { auth_users :=
      [{ id := "u1", email := "a@x.com", full_name := none, status := "active"
         email_verified := false, last_login_at := none, login_count := 0 }]
    auth_credentials :=
      [{ id := "c1", user_id := "u1", password_hash := hashW "pw" "salt"
         password_salt := "salt", failed_attempts := 0, locked_until := none }] }

/-- A registered but disabled domain record. -/
def dbC6 : DB :=
  { sites := [{ id := "site1", name := "Main", slug := "main" }]
    site_domains :=
      [{ site_id := "site1", domain := "example.com", is_primary := true
         status := "disabled" }] }

/-! ## Helper lemmas -/

theorem find?_map_comm {α : Type} (f : α → α) (p : α → Bool)
    (hf : ∀ x, p (f x) = p x) (l : List α) :
    (l.map f).find? p = (l.find? p).map f := by
  induction l with
  | nil => rfl
  | cons a t ih =>
    by_cases h : p a = true
    · simp [List.find?_cons, h, hf]
    · simp only [Bool.not_eq_true] at h
      have h2 : p (f a) = false := by rw [hf]; exact h
      simp [List.find?_cons, h, h2, ih]

theorem foldl_add_vendor_cost (l : List UsageRow) (a : Int) :
    l.foldl (fun sum u => sum + u.vendor_cost) a =
      a + (l.map (fun u => u.vendor_cost)).sum := by
  induction l generalizing a with
  | nil => simp
  | cons u t ih => simp [List.foldl_cons, ih, add_assoc]

/-! ## Claim theorems -/

/-- C10: `calculateVendorPromoCosts(v, start, end)` sums `vendor_cost`
over `promo_usage` rows whose `promo_id` equals the vendor-id argument and
whose `created_at` lies in the inclusive range; the result is independent
of the promotions table (no join through vendor-owned promotions), is 0
when no rows match, and is 0 when the query fails. -/
theorem calculateVendorPromoCosts_spec (db : DB) (v : String) (s e : Int) :
    (calculateVendorPromoCosts false db v s e =
      ((db.promo_usage.filter
          (fun u => u.promo_id == v && s ≤ u.created_at && u.created_at ≤ e)).map
        (fun u => u.vendor_cost)).sum)
  ∧ (∀ ps, calculateVendorPromoCosts false { db with promotions := ps } v s e =
      calculateVendorPromoCosts false db v s e)
  ∧ ((db.promo_usage.filter
        (fun u => u.promo_id == v && s ≤ u.created_at && u.created_at ≤ e)) = [] →
      calculateVendorPromoCosts false db v s e = 0)
  ∧ (calculateVendorPromoCosts true db v s e = 0)
  := by
  have hfilter : db.promo_usage.filter
        (fun u => s ≤ u.created_at && u.created_at ≤ e && u.promo_id == v) =
      db.promo_usage.filter
        (fun u => u.promo_id == v && s ≤ u.created_at && u.created_at ≤ e) := by
    apply List.filter_congr
    intro u _
    cases h1 : (u.promo_id == v) <;>
      cases h2 : decide (s ≤ u.created_at) <;>
      cases h3 : decide (u.created_at ≤ e) <;>
      simp [h1, h2, h3]
  have hmain : calculateVendorPromoCosts false db v s e =
      ((db.promo_usage.filter
          (fun u => u.promo_id == v && s ≤ u.created_at && u.created_at ≤ e)).map
        (fun u => u.vendor_cost)).sum := by
    simp only [calculateVendorPromoCosts, if_false, hfilter,
      foldl_add_vendor_cost, zero_add]
    simp
  refine ⟨hmain, fun ps => rfl, fun hempty => ?_, rfl⟩
  rw [hmain, hempty]
  rfl

/-- C8: `logAuditEvent` swallows an insert failure and returns normally
(on failure the state is simply unchanged), and an audit failure never
changes the outcome of the primary operation for any of signup, login,
logout, validateSession and changeRole: each returns the same result
whether the audit insert fails or succeeds. -/
theorem audit_failure_never_fails_caller (hash : String → String → String)
    (db : DB) (now : Int)
    (token email password newUserId salt userId newRole performedBy : String)
    (fullName reason : Option String) :
    (∀ ev, logAuditEvent true db ev = db)
  ∧ ((login hash true db now token email password).1 =
      (login hash false db now token email password).1)
  ∧ ((signup hash true db now newUserId salt token email password fullName).1 =
      (signup hash false db now newUserId salt token email password fullName).1)
  ∧ ((logout true db now token).1 = (logout false db now token).1)
  ∧ ((validateSession true db now token).1 =
      (validateSession false db now token).1)
  ∧ ((changeRole true db userId newRole performedBy reason).1 =
      (changeRole false db userId newRole performedBy reason).1)
  := by
  refine ⟨fun ev => rfl, ?_, ?_, ?_, rfl, rfl⟩
  · cases hu : db.auth_users.find?
        (fun u => u.email == jsToLower email && u.status == "active") with
    | none => simp [login, hu, logAuditEvent]
    | some user =>
      cases hc : db.auth_credentials.find? (fun c => c.user_id == user.id) with
      | none => simp [login, hu, hc]
      | some cred =>
        by_cases hl : credLocked cred now
        · simp [login, hu, hc, hl, logAuditEvent]
        · simp only [login, hu, hc, hl, logAuditEvent, createSession]
          simp only [Bool.false_eq_true, if_false]
          split <;> rfl
  · cases hu : db.auth_users.find? (fun u => u.email == jsToLower email) with
    | none => simp [signup, hu, logAuditEvent, createSession]
    | some user => simp [signup, hu]
  · cases hs : db.auth_sessions.find? (fun s => s.token == token) with
    | none => simp [logout, hs]
    | some sess => simp [logout, hs, logAuditEvent]

/-- C7: `resolveSiteFromDomain` lower-cases its input and strips one
trailing `:port` before lookup and caching, so resolving
"Example.COM:8443" and "example.com" from the same state gives the same
outcome; `resolveSiteFromHostHeader` strips the port from the raw Host
header (the part before the first colon) and delegates to the domain
resolver. -/
theorem resolve_case_port_normalization (db : DB) (st : ResolverCache)
    (now : Int) :
    (resolveSiteFromDomain db st now "Example.COM:8443" =
      resolveSiteFromDomain db st now "example.com")
  ∧ (∀ h, resolveSiteFromHostHeader db st now h =
      resolveSiteFromDomain db st now ((h.splitOn ":").headD h))
  := by
  constructor
  · have hn : normalizeDomain "Example.COM:8443" = normalizeDomain "example.com" := by
      decide
    simp only [resolveSiteFromDomain, hn]
  · intro h
    rfl

/-- C6: on a cache miss, `resolveSiteFromDomain` returns null both when no
active `site_domains` row carries the normalized domain (an unregistered
domain, and equally a registered but inactive/disabled record) and when
the RPC resolves a site id whose `sites` row is absent. -/
theorem resolve_missing_or_inactive (db : DB) (st : ResolverCache) (now : Int)
    (d : String)
    (hmiss : (getCached st now (normalizeDomain d)).1 = none) :
    ((∀ r ∈ db.site_domains, r.domain = normalizeDomain d → r.status ≠ "active") →
      (resolveSiteFromDomain db st now d).1 = none)
  ∧ (∀ sid, resolve_site_from_domain db (normalizeDomain d) = some sid →
      (∀ s ∈ db.sites, s.id ≠ sid) →
      (resolveSiteFromDomain db st now d).1 = none)
  := by
  obtain ⟨st2, hg⟩ : ∃ st2, getCached st now (normalizeDomain d) = (none, st2) := by
    rcases h : getCached st now (normalizeDomain d) with ⟨o, st2⟩
    have ho : o = none := by rw [h] at hmiss; exact hmiss
    exact ⟨st2, by rw [ho]⟩
  constructor
  · intro hrow
    have hrpc : resolve_site_from_domain db (normalizeDomain d) = none := by
      have hfind : db.site_domains.find?
          (fun r => r.domain == normalizeDomain d && r.status == "active") = none := by
        rw [List.find?_eq_none]
        intro r hr
        simp only [Bool.and_eq_true, beq_iff_eq, not_and]
        intro hdom hst
        exact hrow r hr hdom hst
      simp [resolve_site_from_domain, hfind]
    simp [resolveSiteFromDomain, hg, hrpc]
  · intro sid hsid hsite
    have hfind : db.sites.find? (fun s => s.id == sid) = none := by
      rw [List.find?_eq_none]
      intro s hs
      simp only [beq_iff_eq]
      exact hsite s hs
    simp [resolveSiteFromDomain, hg, hsid, hfind]

/-- C6 witness: a registered but disabled domain record resolves to null
on a cold cache. -/
theorem resolve_missing_or_inactive_witness :
    (resolveSiteFromDomain dbC6 {} 100 "example.com").1 = none := by
  exact (resolve_missing_or_inactive dbC6 {} 100 "example.com" (by decide)).1
    (by decide)

/-- C2: `validateSession` yields an invalid result (none) when the token
matches no session, when the matching session is revoked, when it is
expired (regardless of the revoked flag), and when the session is intact
but the owning identity is not active.  Tokens are unique per the schema
(`token text UNIQUE`), stated as the `huniq` hypothesis. -/
theorem validateSession_invalid (af : Bool) (db : DB) (now : Int) (token : String)
    (huniq : ∀ s1 ∈ db.auth_sessions, ∀ s2 ∈ db.auth_sessions,
      s1.token = token → s2.token = token → s1 = s2) :
    ((∀ s ∈ db.auth_sessions, s.token ≠ token) →
      (validateSession af db now token).1 = none)
  ∧ (∀ s ∈ db.auth_sessions, s.token = token → s.revoked = true →
      (validateSession af db now token).1 = none)
  ∧ (∀ s ∈ db.auth_sessions, s.token = token → s.expires_at < now →
      (validateSession af db now token).1 = none)
  ∧ (∀ s ∈ db.auth_sessions, s.token = token → s.revoked = false →
      ¬ s.expires_at < now →
      (∀ u ∈ db.auth_users, u.id = s.user_id → u.status ≠ "active") →
      (validateSession af db now token).1 = none)
  := by
  refine ⟨?_, ?_, ?_, ?_⟩
  · intro habsent
    have hfind : db.auth_sessions.find? (fun s => s.token == token && !s.revoked) = none := by
      rw [List.find?_eq_none]
      intro s hs
      simp only [Bool.and_eq_true, beq_iff_eq, not_and]
      intro htok
      exact absurd htok (habsent s hs)
    simp [validateSession, hfind]
  · intro s hs htok hrev
    cases hf : db.auth_sessions.find? (fun x => x.token == token && !x.revoked) with
    | none => simp [validateSession, hf]
    | some s2 =>
      have hp := List.find?_some hf
      have hm := List.mem_of_find?_eq_some hf
      simp only [Bool.and_eq_true, beq_iff_eq, Bool.not_eq_eq_eq_not, Bool.not_true] at hp
      have : s2 = s := huniq s2 hm s hs hp.1 htok
      rw [this] at hp
      rw [hrev] at hp
      exact absurd hp.2 (by simp)
  · intro s hs htok hexp
    cases hf : db.auth_sessions.find? (fun x => x.token == token && !x.revoked) with
    | none => simp [validateSession, hf]
    | some s2 =>
      have hp := List.find?_some hf
      have hm := List.mem_of_find?_eq_some hf
      simp only [Bool.and_eq_true, beq_iff_eq, Bool.not_eq_eq_eq_not, Bool.not_true] at hp
      have heq : s2 = s := huniq s2 hm s hs hp.1 htok
      rw [heq] at hf
      simp [validateSession, hf, hexp]
  · intro s hs htok hrev hexp huser
    cases hf : db.auth_sessions.find? (fun x => x.token == token && !x.revoked) with
    | none => simp [validateSession, hf]
    | some s2 =>
      have hp := List.find?_some hf
      have hm := List.mem_of_find?_eq_some hf
      simp only [Bool.and_eq_true, beq_iff_eq, Bool.not_eq_eq_eq_not, Bool.not_true] at hp
      have heq : s2 = s := huniq s2 hm s hs hp.1 htok
      rw [heq] at hf
      have hfu : db.auth_users.find?
          (fun u => u.id == s.user_id && u.status == "active") = none := by
        rw [List.find?_eq_none]
        intro u hu
        simp only [Bool.and_eq_true, beq_iff_eq, not_and]
        intro hid
        exact huser u hu hid
      simp [validateSession, hf, hexp, hfu]

/-- C2 witness: an expired, unrevoked session validates to none. -/
theorem validateSession_invalid_witness :
    (validateSession false dbC2 100 "tok1").1 = none := by
  refine (validateSession_invalid false dbC2 100 "tok1" (by decide)).2.2.1
    { id := "sess1", user_id := "u1", token := "tok1", expires_at := 50
      last_activity_at := none, revoked := false, revoked_at := none
      revoked_reason := none } (by decide) (by decide) (by decide)

/-- C9: when the session lookup succeeds and the session is not expired,
`validateSession` writes `last_activity_at := now` onto the session before
the identity check, so the write is present in the final state even when
the result is none because the owning identity is not active. -/
theorem validateSession_writes_activity (af : Bool) (db : DB) (now : Int)
    (token : String) (s : SessionRow)
    (hf : db.auth_sessions.find? (fun x => x.token == token && !x.revoked) = some s)
    (hexp : ¬ s.expires_at < now)
    (huser : ∀ u ∈ db.auth_users, u.id = s.user_id → u.status ≠ "active") :
    (validateSession af db now token).1 = none
  ∧ (validateSession af db now token).2.auth_sessions =
      db.auth_sessions.map (fun x =>
        if x.id == s.id then { x with last_activity_at := some now } else x)
  := by
  have hfu : db.auth_users.find?
      (fun u => u.id == s.user_id && u.status == "active") = none := by
    rw [List.find?_eq_none]
    intro u hu
    simp only [Bool.and_eq_true, beq_iff_eq, not_and]
    intro hid
    exact huser u hu hid
  constructor
  · simp [validateSession, hf, hexp, hfu]
  · simp [validateSession, hf, hexp, hfu]

/-- C9 witness: a live session of a suspended user still gets its
`last_activity_at` updated while the call returns none. -/
theorem validateSession_writes_activity_witness :
    (validateSession false dbC9 100 "tok1").1 = none
  ∧ (validateSession false dbC9 100 "tok1").2.auth_sessions =
      dbC9.auth_sessions.map (fun x =>
        if x.id == "sess1" then { x with last_activity_at := some 100 } else x)
  := by
  exact validateSession_writes_activity false dbC9 100 "tok1"
    { id := "sess1", user_id := "u1", token := "tok1", expires_at := 500
      last_activity_at := none, revoked := false, revoked_at := none
      revoked_reason := none } (by decide) (by decide) (by decide)

/-- C3: with `locked_until` set and in the future, login fails, the
credential table (hence `failed_attempts`) is untouched, the outcome does
not depend on the supplied password (no hash comparison can influence it),
and the audit trail records the AccountLocked failure. -/
theorem login_locked_no_comparison (hash : String → String → String)
    (af : Bool) (db : DB) (now : Int) (tok email pw : String)
    (u : AuthUserRow) (c : CredRow) (t : Int)
    (hu : db.auth_users.find?
      (fun x => x.email == jsToLower email && x.status == "active") = some u)
    (hc : db.auth_credentials.find? (fun x => x.user_id == u.id) = some c)
    (hlu : c.locked_until = some t) (hfut : now < t) :
    (login hash af db now tok email pw).1 = none
  ∧ (login hash af db now tok email pw).2.auth_credentials = db.auth_credentials
  ∧ (∀ pw2, login hash af db now tok email pw = login hash af db now tok email pw2)
  ∧ (af = false → (login hash af db now tok email pw).2.auth_audit_log =
      db.auth_audit_log ++
        [{ user_id := some u.id, event_type := "login_failed"
           reason := some "account_locked", attempts := none }])
  := by
  have hl : credLocked c now = true := by simp [credLocked, hlu, hfut]
  refine ⟨?_, ?_, ?_, ?_⟩
  · simp [login, hu, hc, hl]
  · simp [login, hu, hc, hl, logAuditEvent]
    split <;> rfl
  · intro pw2
    simp [login, hu, hc, hl]
  · intro haf
    subst haf
    simp [login, hu, hc, hl, logAuditEvent]

/-- C3 witness: the stored hash matches password "pw", yet login with
"pw" at time 100 under a lock until 200 fails with credentials intact. -/
theorem login_locked_no_comparison_witness :
    (login hashW false dbC3 100 "tok" "a@x.com" "pw").1 = none
  ∧ (login hashW false dbC3 100 "tok" "a@x.com" "pw").2.auth_credentials =
      dbC3.auth_credentials
  ∧ hashW "pw" "salt" = hashW "pw" "salt"
  := by
  have h := login_locked_no_comparison hashW false dbC3 100 "tok" "a@x.com" "pw"
    { id := "u1", email := "a@x.com", full_name := none, status := "active"
      email_verified := false, last_login_at := none, login_count := 0 }
    { id := "c1", user_id := "u1", password_hash := hashW "pw" "salt"
      password_salt := "salt", failed_attempts := 3, locked_until := some 200 }
    200 (by decide) (by decide) (by decide) (by decide)
  exact ⟨h.1, h.2.1, rfl⟩

theorem login_wrong_step (hash : String → String → String) (af : Bool)
    (db : DB) (now : Int) (tok email pw : String) (u : AuthUserRow)
    (c : CredRow) (k : Int)
    (hu : db.auth_users.find?
      (fun x => x.email == jsToLower email && x.status == "active") = some u)
    (hc : db.auth_credentials.find? (fun x => x.user_id == u.id) =
      some { c with failed_attempts := k })
    (hnl : credLocked c now = false)
    (hwrong : hash pw c.password_salt ≠ c.password_hash) :
    (login hash af db now tok email pw).1 = none
  ∧ (login hash af db now tok email pw).2.auth_users = db.auth_users
  ∧ (login hash af db now tok email pw).2.auth_credentials =
      db.auth_credentials.map (fun x =>
        if x.id == c.id then { x with failed_attempts := k + 1 } else x)
  ∧ (af = false → (login hash af db now tok email pw).2.auth_audit_log =
      db.auth_audit_log ++
        [{ user_id := some u.id, event_type := "login_failed"
           reason := none, attempts := some (k + 1) }])
  := by
  have hl : credLocked { c with failed_attempts := k } now = false := hnl
  refine ⟨?_, ?_, ?_, ?_⟩
  · simp [login, hu, hc, hl, hwrong]
  · simp [login, hu, hc, hl, hwrong, logAuditEvent]
    split <;> rfl
  · simp [login, hu, hc, hl, hwrong, logAuditEvent]
    split <;> rfl
  · intro haf
    subst haf
    simp [login, hu, hc, hl, hwrong, logAuditEvent]

theorem login_correct_step (hash : String → String → String) (af : Bool)
    (db : DB) (now : Int) (tok email pwG : String) (u : AuthUserRow)
    (c : CredRow) (k : Int)
    (hu : db.auth_users.find?
      (fun x => x.email == jsToLower email && x.status == "active") = some u)
    (hc : db.auth_credentials.find? (fun x => x.user_id == u.id) =
      some { c with failed_attempts := k })
    (hnl : credLocked c now = false)
    (hgood : hash pwG c.password_salt = c.password_hash) :
    (login hash af db now tok email pwG).1.isSome = true
  ∧ (login hash af db now tok email pwG).2.auth_credentials =
      db.auth_credentials.map (fun x =>
        if x.id == c.id then { x with failed_attempts := 0 } else x)
  := by
  have hl : credLocked { c with failed_attempts := k } now = false := hnl
  constructor
  · simp [login, hu, hc, hl, hgood]
  · simp [login, hu, hc, hl, hgood, logAuditEvent, createSession]
    split <;> rfl

theorem cred_update_keeps_user_id (c : CredRow) (v : Int) (uid : String) :
    ∀ x : CredRow,
      ((if x.id == c.id then { x with failed_attempts := v } else x).user_id == uid) =
      (x.user_id == uid) := by
  intro x
  by_cases h : (x.id == c.id) = true
  · simp [h]
  · simp only [Bool.not_eq_true] at h
    simp [h]

theorem loginN_wrong_invariant (hash : String → String → String) (af : Bool)
    (db : DB) (now : Int) (tok email pw : String) (u : AuthUserRow) (c : CredRow)
    (hu : db.auth_users.find?
      (fun x => x.email == jsToLower email && x.status == "active") = some u)
    (hc : db.auth_credentials.find? (fun x => x.user_id == u.id) = some c)
    (hnl : credLocked c now = false)
    (hwrong : hash pw c.password_salt ≠ c.password_hash) :
    ∀ n : Nat,
      (loginN hash af now tok email pw n db).auth_users = db.auth_users
    ∧ (loginN hash af now tok email pw n db).auth_credentials.find?
        (fun x => x.user_id == u.id) =
        some { c with failed_attempts := c.failed_attempts + n }
  := by
  intro n
  induction n with
  | zero =>
    refine ⟨rfl, ?_⟩
    simpa using hc
  | succ n ih =>
    have hun : (loginN hash af now tok email pw n db).auth_users.find?
        (fun x => x.email == jsToLower email && x.status == "active") = some u := by
      rw [ih.1]; exact hu
    have hstep := login_wrong_step hash af (loginN hash af now tok email pw n db)
      now tok email pw u c (c.failed_attempts + n) hun ih.2 hnl hwrong
    refine ⟨?_, ?_⟩
    · show (login hash af (loginN hash af now tok email pw n db) now tok
        email pw).2.auth_users = db.auth_users
      rw [hstep.2.1, ih.1]
    · show (login hash af (loginN hash af now tok email pw n db) now tok
        email pw).2.auth_credentials.find? (fun x => x.user_id == u.id) = _
      rw [hstep.2.2.1]
      rw [find?_map_comm _ _ (cred_update_keeps_user_id c (c.failed_attempts + n + 1) u.id)]
      rw [ih.2]
      simp
      ring

/-- C4: for an active, unlocked identity, every wrong-password login
fails and raises `failed_attempts` by exactly 1 (audited with the new
count), so after n wrong attempts the counter reads its initial value
plus n; a subsequent correct-password login succeeds and resets the
counter to 0. -/
theorem login_wrong_then_reset (hash : String → String → String) (af : Bool)
    (db : DB) (now : Int) (tok email pw pwG : String) (u : AuthUserRow)
    (c : CredRow)
    (hu : db.auth_users.find?
      (fun x => x.email == jsToLower email && x.status == "active") = some u)
    (hc : db.auth_credentials.find? (fun x => x.user_id == u.id) = some c)
    (hnl : credLocked c now = false)
    (hwrong : hash pw c.password_salt ≠ c.password_hash)
    (hgood : hash pwG c.password_salt = c.password_hash) :
    (∀ n : Nat, (login hash af (loginN hash af now tok email pw n db) now tok
      email pw).1 = none)
  ∧ (∀ n : Nat, (loginN hash af now tok email pw n db).auth_credentials.find?
      (fun x => x.user_id == u.id) =
      some { c with failed_attempts := c.failed_attempts + n })
  ∧ (∀ n : Nat, af = false →
      (loginN hash af now tok email pw (n + 1) db).auth_audit_log =
        (loginN hash af now tok email pw n db).auth_audit_log ++
          [{ user_id := some u.id, event_type := "login_failed"
             reason := none, attempts := some (c.failed_attempts + n + 1) }])
  ∧ (∀ n : Nat, (login hash af (loginN hash af now tok email pw n db) now tok
      email pwG).1.isSome = true
    ∧ (login hash af (loginN hash af now tok email pw n db) now tok
        email pwG).2.auth_credentials.find? (fun x => x.user_id == u.id) =
        some { c with failed_attempts := 0 })
  := by
  have hinv := loginN_wrong_invariant hash af db now tok email pw u c hu hc hnl hwrong
  have hun : ∀ n : Nat, (loginN hash af now tok email pw n db).auth_users.find?
      (fun x => x.email == jsToLower email && x.status == "active") = some u := by
    intro n
    rw [(hinv n).1]; exact hu
  refine ⟨?_, fun n => (hinv n).2, ?_, ?_⟩
  · intro n
    exact (login_wrong_step hash af (loginN hash af now tok email pw n db) now tok
      email pw u c (c.failed_attempts + n) (hun n) (hinv n).2 hnl hwrong).1
  · intro n haf
    have := (login_wrong_step hash af (loginN hash af now tok email pw n db) now tok
      email pw u c (c.failed_attempts + n) (hun n) (hinv n).2 hnl hwrong).2.2.2 haf
    simpa [add_assoc] using this
  · intro n
    have hstep := login_correct_step hash af (loginN hash af now tok email pw n db)
      now tok email pwG u c (c.failed_attempts + n) (hun n) (hinv n).2 hnl hgood
    refine ⟨hstep.1, ?_⟩
    rw [hstep.2]
    rw [find?_map_comm _ _ (cred_update_keeps_user_id c 0 u.id)]
    rw [(hinv n).2]
    simp

/-- C4 witness: two wrong-password logins take the counter from 0 to 2,
each failing, and a correct-password login then resets it to 0. -/
theorem login_wrong_then_reset_witness :
    (login hashW false (loginN hashW false 100 "tok" "a@x.com" "bad" 2 dbC4) 100
      "tok" "a@x.com" "bad").1 = none
  ∧ ((loginN hashW false 100 "tok" "a@x.com" "bad" 2 dbC4).auth_credentials.find?
      (fun x => x.user_id == "u1")).map (fun x => x.failed_attempts) = some 2
  ∧ ((login hashW false (loginN hashW false 100 "tok" "a@x.com" "bad" 2 dbC4) 100
      "tok" "a@x.com" "pw").2.auth_credentials.find?
      (fun x => x.user_id == "u1")).map (fun x => x.failed_attempts) = some 0
  := by
  have h := login_wrong_then_reset hashW false dbC4 100 "tok" "a@x.com" "bad" "pw"
    { id := "u1", email := "a@x.com", full_name := none, status := "active"
      email_verified := false, last_login_at := none, login_count := 0 }
    { id := "c1", user_id := "u1", password_hash := hashW "pw" "salt"
      password_salt := "salt", failed_attempts := 0, locked_until := none }
    (by decide) (by decide) (by decide) (by decide) (by decide)
  refine ⟨h.1 2, ?_, ?_⟩
  · rw [h.2.1 2]
    norm_num
  · rw [(h.2.2.2 2).2]
    norm_num

theorem maybeSingle_isSome_eq_any {α : Type} (p : α → Bool) (l : List α)
    (h : (l.filter p).length ≤ 1) :
    (maybeSingle p l).isSome = l.any p := by
  rcases hf : l.filter p with _ | ⟨x, t⟩
  · have hany : l.any p = false := by
      rcases ha : l.any p with _ | _
      · rfl
      · exfalso
        obtain ⟨y, hy, hpy⟩ := List.any_eq_true.mp ha
        have hmem : y ∈ l.filter p := List.mem_filter.mpr ⟨hy, hpy⟩
        rw [hf] at hmem
        exact absurd hmem (List.not_mem_nil y)
    simp [maybeSingle, hf, hany]
  · have ht : t = [] := by
      rw [hf] at h
      cases t with
      | nil => rfl
      | cons y s => simp at h
    subst ht
    have hx : x ∈ l.filter p := by rw [hf]; exact List.mem_cons_self x []
    have hx2 := List.mem_filter.mp hx
    have hany : l.any p = true := List.any_eq_true.mpr ⟨x, hx2.1, hx2.2⟩
    simp [maybeSingle, hf, hany]

theorem maybeSingle_active_sub (l : List SubRow) (vid : String) (now : Int)
    (h : (l.filter
      (fun s => s.vendor_id == vid && s.status == "active")).length ≤ 1) :
    l.any (fun s => s.vendor_id == vid && s.status == "active" &&
      now < s.billing_period_end) =
    (match maybeSingle (fun s => s.vendor_id == vid && s.status == "active") l with
     | some s => decide (now < s.billing_period_end)
     | none => false) := by
  rcases hf : l.filter (fun s => s.vendor_id == vid && s.status == "active")
    with _ | ⟨x, t⟩
  · have hany : l.any (fun s => s.vendor_id == vid && s.status == "active" &&
        now < s.billing_period_end) = false := by
      rcases ha : l.any (fun s => s.vendor_id == vid && s.status == "active" &&
        now < s.billing_period_end) with _ | _
      · rfl
      · exfalso
        obtain ⟨y, hy, hpy⟩ := List.any_eq_true.mp ha
        simp only [Bool.and_eq_true] at hpy
        have hmem : y ∈ l.filter
            (fun s => s.vendor_id == vid && s.status == "active") :=
          List.mem_filter.mpr ⟨hy, by simp [hpy.1.1, hpy.1.2]⟩
        rw [hf] at hmem
        exact absurd hmem (List.not_mem_nil y)
    simp [maybeSingle, hf, hany]
  · have ht : t = [] := by
      rw [hf] at h
      cases t with
      | nil => rfl
      | cons y s => simp at h
    subst ht
    have hx : x ∈ l.filter (fun s => s.vendor_id == vid && s.status == "active") := by
      rw [hf]; exact List.mem_cons_self x []
    have hx2 := List.mem_filter.mp hx
    have hms : maybeSingle (fun s => s.vendor_id == vid && s.status == "active") l
        = some x := by
      simp [maybeSingle, hf]
    rw [hms]
    show l.any (fun s => s.vendor_id == vid && s.status == "active" &&
      now < s.billing_period_end) = decide (now < x.billing_period_end)
    rcases hc : decide (now < x.billing_period_end) with _ | _
    · have hany : l.any (fun s => s.vendor_id == vid && s.status == "active" &&
          now < s.billing_period_end) = false := by
        rcases ha : l.any (fun s => s.vendor_id == vid && s.status == "active" &&
          now < s.billing_period_end) with _ | _
        · rfl
        · exfalso
          obtain ⟨y, hy, hpy⟩ := List.any_eq_true.mp ha
          simp only [Bool.and_eq_true] at hpy
          have hmem : y ∈ l.filter
              (fun s => s.vendor_id == vid && s.status == "active") :=
            List.mem_filter.mpr ⟨hy, by simp [hpy.1.1, hpy.1.2]⟩
          rw [hf] at hmem
          have hyx : y = x := by simpa using hmem
          rw [hyx] at hpy
          rw [hc] at hpy
          exact absurd hpy.2 (by simp)
      rw [hany]
    · have hb : (x.vendor_id == vid && x.status == "active") = true := hx2.2
      have hfull : (x.vendor_id == vid && x.status == "active" &&
          decide (now < x.billing_period_end)) = true := by
        rw [hb, hc]
        rfl
      exact List.any_eq_true.mpr ⟨x, hx2.1, hfull⟩

/-- C1 counterexample: a vendor that is approved and has a signed
agreement plus two `status = active` subscription rows, the first expired
and the second current.  The claim-level condition "an active
subscription row exists with `billing_period_end` strictly after now"
holds (last conjunct), so the claim requires an empty blockers list, yet
the RPC makes canGoLive = true while the client `maybeSingle`, seeing two
matching rows, yields null data, so the code reports the blocker
"No active subscription" (and the `hasActiveSubscription` flag false),
refuting "blockers contains exactly the reason for each failing
condition" and "blockers is empty iff canGoLive is true". -/
theorem checkVendorCanGoLive_claim_counterexample :
    (checkVendorCanGoLive dbC1 10 "v1").canGoLive = true
  ∧ (checkVendorCanGoLive dbC1 10 "v1").blockers = ["No active subscription"]
  ∧ (checkVendorCanGoLive dbC1 10 "v1").hasActiveSubscription = false
  ∧ dbC1.vendor_subscriptions.any
      (fun s => s.vendor_id == "v1" && s.status == "active" &&
        (10 : Int) < s.billing_period_end) = true
  := by decide

/-- C1 (amended): provided the vendor has at most one subscription row
with status active and at most one agreement row with status signed (the
two lookups without a schema uniqueness constraint, where a second
matching row makes `maybeSingle` yield null data), `checkVendorCanGoLive`
returns canGoLive = true iff all three of isApproved,
hasActiveSubscription and hasSignedAgreement hold, the three flags match
their defining lookups, and blockers contains exactly the human-readable
reason for each failing condition in the fixed order [not-approved,
no-subscription, no-agreement], so blockers is empty iff canGoLive is
true. -/
theorem checkVendorCanGoLive_amended (db : DB) (now : Int) (vid : String)
    (huniqS : (db.vendor_subscriptions.filter
      (fun s => s.vendor_id == vid && s.status == "active")).length ≤ 1)
    (huniqA : (db.vendor_agreements.filter
      (fun a => a.vendor_id == vid && a.status == "signed")).length ≤ 1) :
    ((checkVendorCanGoLive db now vid).canGoLive =
      ((checkVendorCanGoLive db now vid).isApproved
        && (checkVendorCanGoLive db now vid).hasActiveSubscription
        && (checkVendorCanGoLive db now vid).hasSignedAgreement))
  ∧ ((checkVendorCanGoLive db now vid).isApproved =
      (match db.vendors.find? (fun v => v.id == vid) with
       | some v => v.status == "approved"
       | none => false))
  ∧ ((checkVendorCanGoLive db now vid).hasActiveSubscription =
      db.vendor_subscriptions.any (fun s => s.vendor_id == vid &&
        s.status == "active" && now < s.billing_period_end))
  ∧ ((checkVendorCanGoLive db now vid).hasSignedAgreement =
      db.vendor_agreements.any (fun a => a.vendor_id == vid && a.status == "signed"))
  ∧ ((checkVendorCanGoLive db now vid).blockers =
      (if (checkVendorCanGoLive db now vid).isApproved then []
       else ["Vendor not approved"])
      ++ (if (checkVendorCanGoLive db now vid).hasActiveSubscription then []
          else ["No active subscription"])
      ++ (if (checkVendorCanGoLive db now vid).hasSignedAgreement then []
          else ["No signed agreement"]))
  ∧ ((checkVendorCanGoLive db now vid).blockers = [] ↔
      (checkVendorCanGoLive db now vid).canGoLive = true)
  := by
  have hsub := maybeSingle_active_sub db.vendor_subscriptions vid now huniqS
  have hagr := maybeSingle_isSome_eq_any
    (fun a => a.vendor_id == vid && a.status == "signed")
    db.vendor_agreements huniqA
  have h1 : (checkVendorCanGoLive db now vid).canGoLive =
      ((checkVendorCanGoLive db now vid).isApproved
        && (checkVendorCanGoLive db now vid).hasActiveSubscription
        && (checkVendorCanGoLive db now vid).hasSignedAgreement) := by
    simp only [checkVendorCanGoLive, check_vendor_can_go_live]
    rw [hsub, hagr]
  have h5 : (checkVendorCanGoLive db now vid).blockers =
      (if (checkVendorCanGoLive db now vid).isApproved then []
       else ["Vendor not approved"])
      ++ (if (checkVendorCanGoLive db now vid).hasActiveSubscription then []
          else ["No active subscription"])
      ++ (if (checkVendorCanGoLive db now vid).hasSignedAgreement then []
          else ["No signed agreement"]) := rfl
  refine ⟨h1, rfl, hsub.symm, hagr, h5, ?_⟩
  rw [h5, h1]
  cases (checkVendorCanGoLive db now vid).isApproved <;>
    cases (checkVendorCanGoLive db now vid).hasActiveSubscription <;>
      cases (checkVendorCanGoLive db now vid).hasSignedAgreement <;> simp

/-- C1 witness: a vendor with a single current subscription, a single
signed agreement and approved status goes live with an empty blockers
list. -/
theorem checkVendorCanGoLive_amended_witness :
    (checkVendorCanGoLive dbC1w 10 "v1").canGoLive = true
  ∧ (checkVendorCanGoLive dbC1w 10 "v1").blockers = [] := by
  have h := checkVendorCanGoLive_amended dbC1w 10 "v1" (by decide) (by decide)
  exact ⟨by decide, h.2.2.2.2.2.mpr (by decide)⟩

theorem if_nil_single_eq_nil (c : Prop) [Decidable c] (m : String) :
    ((if c then ([] : List String) else [m]) = []) ↔ c := by
  by_cases h : c <;> simp [h]

theorem if_single_nil_eq_nil (c : Prop) [Decidable c] (m : String) :
    ((if c then [m] else ([] : List String)) = []) ↔ ¬ c := by
  by_cases h : c <;> simp [h]

/-- C5 counterexample: a promotion whose `usage_limit` column is set (to
0) with `usage_count` 5 ≥ 0 and every other condition passing.  The claim
reads "usage_count >= usage_limit (if usage_limit set)", so it requires
the error "Promotion usage limit reached" and canBeUsed = false; the code
skips the check for a zero limit (JavaScript truthiness) and returns
canBeUsed = true with no errors. -/
theorem validatePromotion_claim_counterexample :
    validatePromotion dbC5 10 "p1" "site1" "retail" =
      { isValid := true, canBeUsed := true, errors := [] }
  ∧ (dbC5.promotions.find? (fun x => x.id == "p1")).map
      (fun x => (x.usage_limit, x.usage_count)) = some (some 0, 5)
  := by decide

/-- C5 (amended): for an existing promotion, isValid = true iff its
status is active; canBeUsed = true iff zero errors accumulate from:
status not active; site_id set and mismatched; now before starts_at; now
after ends_at (if set); userRole not in allowed_roles (if set);
usage_count >= usage_limit (if usage_limit is set to a nonzero value);
owning vendor canGoLive false.  All checks run without short-circuiting,
and whenever a nonzero usage_limit is reached the errors list includes
"Promotion usage limit reached" (so with usage_limit = 10 and usage_count
= 10 that error is reported even if everything else passes). -/
theorem validatePromotion_amended (db : DB) (now : Int) (pid sid role : String)
    (p : PromoRow)
    (hp : db.promotions.find? (fun x => x.id == pid) = some p) :
    ((validatePromotion db now pid sid role).isValid = (p.status == "active"))
  ∧ ((validatePromotion db now pid sid role).canBeUsed = true ↔
      (p.status = "active"
        ∧ (∀ s, p.site_id = some s → s = sid)
        ∧ ¬ now < p.starts_at
        ∧ (∀ e, p.ends_at = some e → ¬ e < now)
        ∧ (∀ rs, p.allowed_roles = some rs → role ∈ rs)
        ∧ (∀ l, p.usage_limit = some l → l ≠ 0 → p.usage_count < l)
        ∧ (checkVendorCanGoLive db now p.vendor_id).canGoLive = true))
  ∧ (∀ l, p.usage_limit = some l → l ≠ 0 → p.usage_count ≥ l →
      "Promotion usage limit reached" ∈ (validatePromotion db now pid sid role).errors)
  := by
  refine ⟨by simp [validatePromotion, hp], ?_, ?_⟩
  · rcases hs : p.site_id with _ | s <;>
      rcases he : p.ends_at with _ | e <;>
        rcases hr : p.allowed_roles with _ | rs <;>
          rcases hl : p.usage_limit with _ | l <;>
    · simp only [validatePromotion, hp, hs, he, hr, hl]
      simp only [List.isEmpty_iff, List.append_eq_nil,
        if_nil_single_eq_nil, if_single_nil_eq_nil]
      simp [hs, he, hr, hl, and_assoc]
  · intro l hul hl0 hcl
    simp only [validatePromotion, hp]
    simp [hul, hl0, hcl, List.mem_append]

/-- C5 witness: a promotion at `usage_limit` 10 with `usage_count` 10 and
every other condition passing reports "Promotion usage limit reached" and
cannot be used. -/
theorem validatePromotion_amended_witness :
    "Promotion usage limit reached" ∈
      (validatePromotion dbC5w 10 "p1" "s1" "retail").errors
  ∧ (validatePromotion dbC5w 10 "p1" "s1" "retail").canBeUsed = false := by
  have h := validatePromotion_amended dbC5w 10 "p1" "s1" "retail"
    { id := "p1", vendor_id := "v1", site_id := none, status := "active"
      starts_at := 0, ends_at := none, allowed_roles := none
      usage_limit := some 10, usage_count := 10 } (by decide)
  exact ⟨h.2.2 10 rfl (by decide) (by decide), by decide⟩

/-- C10 witness: a usage row within the date range but with a `promo_id`
different from the queried vendor id contributes nothing: the sum is 0. -/
theorem calculateVendorPromoCosts_spec_witness :
    calculateVendorPromoCosts false
      { promo_usage := [{ promo_id := "p9", created_at := 5, vendor_cost := 3 }] }
      "v1" 0 100 = 0 := by
  exact (calculateVendorPromoCosts_spec
    { promo_usage := [{ promo_id := "p9", created_at := 5, vendor_cost := 3 }] }
    "v1" 0 100).2.2.1 (by decide)
